import Mathlib

/-!
Verification of the insightly_stages repository.

The embedding follows src/insightly_stages.py. Opportunity custom-field
values in the source are dynamically typed Python values: the integers the
tracker writes, strings, and in particular date strings of the form
"%Y-%m-%d 00:00:00". A date string is abstracted as its day number
(constructor FieldVal.date); any other string is FieldVal.str. The call
(datetime.now() - last_time).days in the source floors the signed
difference between a timestamp with a time of day t, 0 <= t < 24h, and a
midnight timestamp, which always equals the plain difference of the two
day numbers, so dates are modelled as integer day numbers throughout and
"today" is an integer parameter.
-/

/-- A Python value stored under FIELD_VALUE of a custom field: an integer,
a string of the form "%Y-%m-%d 00:00:00" abstracted as its day number, or
any other string. -/
inductive FieldVal where
  | int (n : Int)
  | date (d : Int)
  | str (s : String)
  deriving DecidableEq

/-- Python truthiness of a FIELD_VALUE: 0 and the empty string are falsy,
every well-formed date string is nonempty hence truthy. -/
def FieldVal.truthy : FieldVal → Bool
  | .int n => n != 0
  | .date _ => true
  | .str s => s != ""

/-- Python truthiness of dict.get, where a missing key yields None (falsy). -/
def truthyO : Option FieldVal → Bool
  | none => false
  | some v => v.truthy

/-- Python 2 equality stage_order == value (line 186): an int equals only
an equal int; an int never equals a string. -/
def pyEqInt (n : Int) : FieldVal → Bool
  | .int m => n == m
  | _ => false

/-- Python 2 comparison stage_order > value (line 189): ints compare
normally, and in Python 2 every number is smaller than every string, so
int > string is always False. -/
def pyGtInt (n : Int) : FieldVal → Bool
  | .int m => m < n
  | _ => false

/-- One entry of an opportunity CUSTOMFIELDS list: the CUSTOM_FIELD_ID key
and the optional FIELD_VALUE key. -/
structure CustomFieldValue where
  custom_field_id : String
  field_value : Option FieldVal
  deriving DecidableEq

/-- First entry of the list whose CUSTOM_FIELD_ID matches, as the list
comprehension on line 129 followed by field[0]. -/
def find_custom_field (i : String) : List CustomFieldValue → Option CustomFieldValue
  | [] => none
  | c :: rest => if c.custom_field_id == i then some c else find_custom_field i rest

/-- FIELD_VALUE of the first matching entry; none when there is no entry
or the entry has no FIELD_VALUE key. -/
def readValue (i : String) : List CustomFieldValue → Option FieldVal
  | [] => none
  | c :: rest => if c.custom_field_id == i then c.field_value else readValue i rest

/-- Whether some entry of the list has the given CUSTOM_FIELD_ID. -/
def hasField (i : String) : List CustomFieldValue → Bool
  | [] => false
  | c :: rest => c.custom_field_id == i || hasField i rest

/-- Number of entries of the list with the given CUSTOM_FIELD_ID. -/
def countField (i : String) : List CustomFieldValue → Nat
  | [] => 0
  | c :: rest => (if c.custom_field_id == i then 1 else 0) + countField i rest

/-- Assignment field[FIELD_VALUE] = v through the dict reference returned
by get_custom_field: it mutates the first entry with that id in place. -/
def setFirst (i : String) (v : FieldVal) : List CustomFieldValue → List CustomFieldValue
  | [] => []
  | c :: rest =>
    if c.custom_field_id == i then { c with field_value := some v } :: rest
    else c :: setFirst i v rest

/-- get_custom_field (lines 128-137): return the first entry with the id,
or synthesize one, append it, and return it. The returned pair is the
entry (a snapshot of the shared dict) and the possibly extended list. -/
def get_custom_field (cfs : List CustomFieldValue) (i : String) (d : Option FieldVal) :
    CustomFieldValue × List CustomFieldValue :=
  match find_custom_field i cfs with
  | some c => (c, cfs)
  | none => (⟨i, d⟩, cfs ++ [⟨i, d⟩])

/-- The custom-field list after the three get_custom_field calls of lines
181-183: last_known_stage with no default, last_time_stage_changed
defaulting to today, days_in_current_stage defaulting to 0. -/
def synth3 (lksId ltcId dicsId : String) (today : Int) (cfs0 : List CustomFieldValue) :
    List CustomFieldValue :=
  (get_custom_field
    (get_custom_field
      (get_custom_field cfs0 lksId none).2
      ltcId (some (.date today))).2
    dicsId (some (.int 0))).2

/-- The per-opportunity stage-tracking step, lines 180-195 of the source,
after the stage order of the opportunity has been looked up. Reads happen
on the entry snapshots returned by get_custom_field (all reads precede
all writes in every branch of the source); writes mutate the first entry
with the written id. The error results model the exceptions raised by
datetime.strptime when the stored last_time_stage_changed value is not a
string of the expected format. -/
def track_one (lksId ltcId dicsId : String) (today stage_order : Int)
    (cfs0 : List CustomFieldValue) : Except String (List CustomFieldValue) :=
  let r1 := get_custom_field cfs0 lksId none
  let r2 := get_custom_field r1.2 ltcId (some (.date today))
  let r3 := get_custom_field r2.2 dicsId (some (.int 0))
  let cfs3 := r3.2
  let firstTime : Except String (List CustomFieldValue) :=
    .ok (setFirst ltcId (.date today) (setFirst lksId (.int stage_order) cfs3))
  match r1.1.field_value with
  | none => firstTime
  | some lv =>
    if lv.truthy then
      if pyEqInt stage_order lv then
        match r2.1.field_value with
        | some (.date d) => .ok (setFirst dicsId (.int (today - d)) cfs3)
        | _ => .error "ValueError: time data does not match format"
      else if pyGtInt stage_order lv then
        .ok (setFirst lksId (.int stage_order)
              (setFirst ltcId (.date today) (setFirst dicsId (.int 0) cfs3)))
      else
        .ok cfs3
    else firstTime

/-- A custom-field definition as returned by the CustomFields endpoint. -/
structure CustomFieldDef where
  custom_field_id : String
  field_for : String
  field_name : String
  deriving DecidableEq

/-- needle.isPrefixOf at some suffix of hay: Python substring containment. -/
def substr_at : List Char → List Char → Bool
  | [], needle => needle.isEmpty
  | c :: t, needle => needle.isPrefixOf (c :: t) || substr_at t needle

/-- Python expression needle in hay for strings. -/
def str_contains (hay needle : String) : Bool :=
  substr_at hay.toList needle.toList

/-- get_fields_by_name (lines 140-143): definitions applying to
opportunities whose name contains the target name, case-insensitively. -/
def get_fields_by_name (fields : List CustomFieldDef) (name : String) : List CustomFieldDef :=
  fields.filter (fun x => x.field_for == "OPPORTUNITY" &&
    str_contains x.field_name.toLower name.toLower)

/-- A pipeline stage record with its ordinal. -/
structure Stage where
  stage_id : Int
  stage_order : Int
  deriving DecidableEq

/-- The dict comprehension on line 168 keyed by STAGE_ID followed by
stages.get: on duplicate ids the later entry wins. -/
def stagesLookup (stages : List Stage) (sid : Int) : Option Stage :=
  stages.reverse.find? (fun s => s.stage_id == sid)

/-- An opportunity: its id, its nullable STAGE_ID and its CUSTOMFIELDS. -/
structure Opp where
  opportunity_id : Int
  stage_id : Option Int
  customfields : List CustomFieldValue
  deriving DecidableEq

/-- Outcome of one run of process_opportunities_stages. completed: the
function ran through the whole loop and returned, process exit code 0.
earlyReturn: the function logged an error and returned early, process
exit code 0. raised: an uncaught exception, process exit code nonzero.
saves lists the opportunities persisted by insightly_put, in order. -/
inductive RunOutcome where
  | completed (saves : List Opp)
  | earlyReturn (msg : String) (saves : List Opp)
  | raised (msg : String) (saves : List Opp)
  deriving DecidableEq

/-- True exactly when the run outcome is an uncaught exception, in which
case the process terminates nonzero. -/
def RunOutcome.isRaised : RunOutcome → Bool
  | .raised _ _ => true
  | _ => false

/-- The opportunities the run persisted. -/
def RunOutcome.saved : RunOutcome → List Opp
  | .completed s => s
  | .earlyReturn _ s => s
  | .raised _ s => s

/-- The per-opportunity loop of lines 172-199: skip opportunities with a
falsy STAGE_ID; return early when the stage id is absent from the
catalog; otherwise run the tracking step and persist the opportunity. -/
def runLoop (lksId ltcId dicsId : String) (stages : List Stage) (today : Int) :
    List Opp → List Opp → RunOutcome
  | [], saves => .completed saves
  | opp :: rest, saves =>
    match opp.stage_id with
    | none => runLoop lksId ltcId dicsId stages today rest saves
    | some sid =>
      if sid = 0 then runLoop lksId ltcId dicsId stages today rest saves
      else
        match stagesLookup stages sid with
        | none => .earlyReturn ("No stage " ++ toString sid ++ " found!") saves
        | some st =>
          match track_one lksId ltcId dicsId today st.stage_order opp.customfields with
          | .error msg => .raised msg saves
          | .ok cfs =>
            runLoop lksId ltcId dicsId stages today rest
              (saves ++ [{ opp with customfields := cfs }])

/-- The remote data a run consumes: the custom-field definitions, the
open opportunities the search would return, and the pipeline stages. -/
structure Server where
  customFields : List CustomFieldDef
  opportunities : List Opp
  stages : List Stage
  deriving DecidableEq

/-- process_opportunities_stages (lines 146-199): resolve the three
custom-field definitions by name, return early after logging when any of
the three has zero or several matches, then fetch the opportunities and
the stage catalog and run the loop. -/
def process_opportunities_stages (today : Int) (srv : Server) : RunOutcome :=
  let lksM := get_fields_by_name srv.customFields "last known stage"
  let ltcM := get_fields_by_name srv.customFields "last time stage changed"
  let dicsM := get_fields_by_name srv.customFields "days in current stage"
  if 1 < lksM.length then .earlyReturn "More than one last_known_stage custom fields" []
  else if lksM.length = 0 then .earlyReturn "No last_known_stage custom field found!" []
  else if 1 < ltcM.length then .earlyReturn "More than one last_time_stage_changed custom fields" []
  else if ltcM.length = 0 then .earlyReturn "No last_time_stage_changed custom field found!" []
  else if 1 < dicsM.length then .earlyReturn "More than one days_in_current_stage custom fields" []
  else if dicsM.length = 0 then .earlyReturn "No days_in_current_stage custom field found!" []
  else
    let lksId := (lksM.headD ⟨"", "", ""⟩).custom_field_id
    let ltcId := (ltcM.headD ⟨"", "", ""⟩).custom_field_id
    let dicsId := (dicsM.headD ⟨"", "", ""⟩).custom_field_id
    runLoop lksId ltcId dicsId srv.stages today srv.opportunities []

/-- The pagination loop of insightly_get_all (lines 26-40) against a
server holding the given result set: a GET with offset skip returns the
slice items[skip : skip + batch] and reports X-Total-Count =
items.length. fuel bounds the number of iterations of the while True
loop; none means the loop has not terminated within fuel iterations. The
loop body appends the page, stops once the accumulated length reaches
the total, and otherwise adds the accumulated length to skip. -/
def insightly_get_all_fuel (items : List Nat) (batch : Nat) :
    Nat → Nat → List Nat → Option (List Nat)
  | 0, _, _ => none
  | fuel + 1, skip, results =>
    let page := (items.drop skip).take batch
    let results2 := results ++ page
    if items.length ≤ results2.length then some results2
    else insightly_get_all_fuel items batch fuel (skip + results2.length) results2

/-- insightly_get_all starting from skip = 0 with an empty accumulator. -/
def insightly_get_all (items : List Nat) (batch fuel : Nat) : Option (List Nat) :=
  insightly_get_all_fuel items batch fuel 0 []

section HelperLemmas

theorem find_custom_field_none_iff (i : String) (cfs : List CustomFieldValue) :
    find_custom_field i cfs = none ↔ hasField i cfs = false := by
  induction cfs with
  | nil => simp [find_custom_field, hasField]
  | cons c rest ih =>
    by_cases h : c.custom_field_id = i <;>
      simp [find_custom_field, hasField, h, ih]

theorem find_custom_field_some_val (i : String) (cfs : List CustomFieldValue)
    (c : CustomFieldValue) (h : find_custom_field i cfs = some c) :
    c.field_value = readValue i cfs := by
  induction cfs with
  | nil => simp [find_custom_field] at h
  | cons c0 rest ih =>
    by_cases h0 : c0.custom_field_id = i
    · simp [find_custom_field, h0] at h
      simp [readValue, h0, ← h]
    · simp [find_custom_field, h0] at h
      simpa [readValue, h0] using ih h

theorem find_custom_field_some_has (i : String) (cfs : List CustomFieldValue)
    (c : CustomFieldValue) (h : find_custom_field i cfs = some c) :
    hasField i cfs = true := by
  by_cases hh : hasField i cfs
  · exact hh
  · have : find_custom_field i cfs = none :=
      (find_custom_field_none_iff i cfs).2 (by simpa using hh)
    rw [this] at h
    cases h

theorem readValue_some_hasField (i : String) (cfs : List CustomFieldValue)
    (v : FieldVal) (h : readValue i cfs = some v) : hasField i cfs = true := by
  induction cfs with
  | nil => simp [readValue] at h
  | cons c rest ih =>
    by_cases h0 : c.custom_field_id = i
    · simp [hasField, h0]
    · simp [readValue, h0] at h
      simp [hasField, h0, ih h]

theorem readValue_append_one_self (i : String) (d : Option FieldVal)
    (cfs : List CustomFieldValue) (h : hasField i cfs = false) :
    readValue i (cfs ++ [⟨i, d⟩]) = d := by
  induction cfs with
  | nil => simp [readValue]
  | cons c rest ih =>
    simp [hasField] at h
    simp [readValue, h.1, ih h.2]

theorem readValue_append_one_ne (i j : String) (d : Option FieldVal)
    (cfs : List CustomFieldValue) (h : j ≠ i) :
    readValue j (cfs ++ [⟨i, d⟩]) = readValue j cfs := by
  induction cfs with
  | nil => simp [readValue, Ne.symm h]
  | cons c rest ih =>
    by_cases h0 : c.custom_field_id = j <;> simp [readValue, h0, ih]

theorem hasField_append_one (i j : String) (d : Option FieldVal)
    (cfs : List CustomFieldValue) :
    hasField j (cfs ++ [⟨i, d⟩]) = (hasField j cfs || i == j) := by
  induction cfs with
  | nil => simp [hasField]
  | cons c rest ih =>
    by_cases h0 : c.custom_field_id = j <;> simp [hasField, h0, ih, Bool.or_assoc]

theorem countField_append_one (i j : String) (d : Option FieldVal)
    (cfs : List CustomFieldValue) :
    countField j (cfs ++ [⟨i, d⟩]) =
      countField j cfs + (if i = j then 1 else 0) := by
  induction cfs with
  | nil => simp [countField]
  | cons c rest ih =>
    by_cases h0 : c.custom_field_id = j
    · simp [countField, h0, ih]
      omega
    · simp [countField, h0, ih]

theorem countField_zero_iff (i : String) (cfs : List CustomFieldValue) :
    countField i cfs = 0 ↔ hasField i cfs = false := by
  induction cfs with
  | nil => simp [countField, hasField]
  | cons c rest ih =>
    by_cases h0 : c.custom_field_id = i <;> simp [countField, hasField, h0, ih]

theorem gcf_snd (cfs : List CustomFieldValue) (i : String) (d : Option FieldVal) :
    (get_custom_field cfs i d).2 =
      if hasField i cfs then cfs else cfs ++ [⟨i, d⟩] := by
  rcases h : find_custom_field i cfs with _ | c
  · have hf : hasField i cfs = false := (find_custom_field_none_iff i cfs).1 h
    simp [get_custom_field, h, hf]
  · simp [get_custom_field, h, find_custom_field_some_has i cfs c h]

theorem gcf_fst_val (cfs : List CustomFieldValue) (i : String) (d : Option FieldVal) :
    (get_custom_field cfs i d).1.field_value =
      if hasField i cfs then readValue i cfs else d := by
  rcases h : find_custom_field i cfs with _ | c
  · have hf : hasField i cfs = false := (find_custom_field_none_iff i cfs).1 h
    simp [get_custom_field, h, hf]
  · simp [get_custom_field, h, find_custom_field_some_has i cfs c h,
      find_custom_field_some_val i cfs c h]

theorem readValue_gcf_self (cfs : List CustomFieldValue) (i : String) (d : Option FieldVal) :
    readValue i (get_custom_field cfs i d).2 =
      if hasField i cfs then readValue i cfs else d := by
  rw [gcf_snd]
  by_cases h : hasField i cfs
  · simp [h]
  · simp only [h, Bool.false_eq_true, if_false, if_neg]
    exact readValue_append_one_self i d cfs (by simpa using h)

theorem readValue_gcf_ne (cfs : List CustomFieldValue) (i j : String)
    (d : Option FieldVal) (h : j ≠ i) :
    readValue j (get_custom_field cfs i d).2 = readValue j cfs := by
  rw [gcf_snd]
  by_cases hh : hasField i cfs
  · simp [hh]
  · simp only [hh, Bool.false_eq_true, if_false, if_neg]
    exact readValue_append_one_ne i j d cfs h

theorem hasField_gcf_self (cfs : List CustomFieldValue) (i : String) (d : Option FieldVal) :
    hasField i (get_custom_field cfs i d).2 = true := by
  rw [gcf_snd]
  by_cases h : hasField i cfs <;> simp [h, hasField_append_one]

theorem hasField_gcf_ne (cfs : List CustomFieldValue) (i j : String)
    (d : Option FieldVal) (h : j ≠ i) :
    hasField j (get_custom_field cfs i d).2 = hasField j cfs := by
  rw [gcf_snd]
  by_cases hh : hasField i cfs
  · simp [hh]
  · simp [hh, hasField_append_one, Ne.symm h]

theorem countField_gcf (cfs : List CustomFieldValue) (i j : String) (d : Option FieldVal) :
    countField j (get_custom_field cfs i d).2 =
      if i = j ∧ hasField i cfs = false then countField j cfs + 1
      else countField j cfs := by
  rw [gcf_snd]
  by_cases hh : hasField i cfs
  · simp [hh]
  · have hf : hasField i cfs = false := by simpa using hh
    by_cases hij : i = j
    · subst hij
      simp [hf, countField_append_one]
    · simp [hf, countField_append_one, hij]

theorem readValue_setFirst_self (i : String) (v : FieldVal) (cfs : List CustomFieldValue) :
    readValue i (setFirst i v cfs) =
      if hasField i cfs then some v else none := by
  induction cfs with
  | nil => simp [setFirst, readValue, hasField]
  | cons c rest ih =>
    by_cases h0 : c.custom_field_id = i <;>
      simp [setFirst, readValue, hasField, h0, ih]

theorem readValue_setFirst_ne (i j : String) (v : FieldVal)
    (cfs : List CustomFieldValue) (h : j ≠ i) :
    readValue j (setFirst i v cfs) = readValue j cfs := by
  induction cfs with
  | nil => simp [setFirst, readValue]
  | cons c rest ih =>
    by_cases h0 : c.custom_field_id = i
    · have h1 : c.custom_field_id ≠ j := by rw [h0]; exact Ne.symm h
      simp [setFirst, readValue, h0, h1, Ne.symm h]
    · by_cases h1 : c.custom_field_id = j
      · simp [setFirst, readValue, h0, h1, h]
      · simp [setFirst, readValue, h0, h1, ih]

theorem hasField_setFirst (i j : String) (v : FieldVal) (cfs : List CustomFieldValue) :
    hasField j (setFirst i v cfs) = hasField j cfs := by
  induction cfs with
  | nil => simp [setFirst]
  | cons c rest ih =>
    by_cases h0 : c.custom_field_id = i <;> simp [setFirst, hasField, h0, ih]

theorem countField_setFirst (i j : String) (v : FieldVal) (cfs : List CustomFieldValue) :
    countField j (setFirst i v cfs) = countField j cfs := by
  induction cfs with
  | nil => simp [setFirst]
  | cons c rest ih =>
    by_cases h0 : c.custom_field_id = i <;> simp [setFirst, countField, h0, ih]

theorem setFirst_of_not_has (i : String) (v : FieldVal) (cfs : List CustomFieldValue)
    (h : hasField i cfs = false) : setFirst i v cfs = cfs := by
  induction cfs with
  | nil => simp [setFirst]
  | cons c rest ih =>
    simp [hasField] at h
    simp [setFirst, h.1, ih h.2]

theorem readValue_none_of_not_has (i : String) (cfs : List CustomFieldValue)
    (h : hasField i cfs = false) : readValue i cfs = none := by
  induction cfs with
  | nil => simp [readValue]
  | cons c rest ih =>
    simp [hasField] at h
    simp [readValue, h.1, ih h.2]

theorem hasField_gcf_mono (cfs : List CustomFieldValue) (i j : String)
    (d : Option FieldVal) (h : hasField j cfs = true) :
    hasField j (get_custom_field cfs i d).2 = true := by
  by_cases hij : j = i
  · subst hij
    exact hasField_gcf_self cfs j d
  · rw [hasField_gcf_ne cfs i j d hij]
    exact h

theorem gcf_fst_readValue (cfs : List CustomFieldValue) (i : String) :
    (get_custom_field cfs i none).1.field_value = readValue i cfs := by
  rw [gcf_fst_val]
  by_cases h : hasField i cfs
  · simp [h]
  · have hf : hasField i cfs = false := by simpa using h
    simp [hf, readValue_none_of_not_has i cfs hf]

theorem hasField_synth3_lks (lksId ltcId dicsId : String) (today : Int)
    (cfs0 : List CustomFieldValue) :
    hasField lksId (synth3 lksId ltcId dicsId today cfs0) = true := by
  unfold synth3
  exact hasField_gcf_mono _ _ _ _ (hasField_gcf_mono _ _ _ _ (hasField_gcf_self _ _ _))

theorem hasField_synth3_ltc (lksId ltcId dicsId : String) (today : Int)
    (cfs0 : List CustomFieldValue) :
    hasField ltcId (synth3 lksId ltcId dicsId today cfs0) = true := by
  unfold synth3
  exact hasField_gcf_mono _ _ _ _ (hasField_gcf_self _ _ _)

theorem hasField_synth3_dics (lksId ltcId dicsId : String) (today : Int)
    (cfs0 : List CustomFieldValue) :
    hasField dicsId (synth3 lksId ltcId dicsId today cfs0) = true := by
  unfold synth3
  exact hasField_gcf_self _ _ _

theorem readValue_synth3_lks (lksId ltcId dicsId : String) (today : Int)
    (cfs0 : List CustomFieldValue) (hlt : lksId ≠ ltcId) (hld : lksId ≠ dicsId) :
    readValue lksId (synth3 lksId ltcId dicsId today cfs0) = readValue lksId cfs0 := by
  unfold synth3
  rw [readValue_gcf_ne _ _ _ _ hld, readValue_gcf_ne _ _ _ _ hlt, readValue_gcf_self]
  by_cases h : hasField lksId cfs0
  · simp [h]
  · have hf : hasField lksId cfs0 = false := by simpa using h
    simp [hf, readValue_none_of_not_has lksId cfs0 hf]

theorem readValue_synth3_ltc (lksId ltcId dicsId : String) (today : Int)
    (cfs0 : List CustomFieldValue) (htl : ltcId ≠ lksId) (htd : ltcId ≠ dicsId) :
    readValue ltcId (synth3 lksId ltcId dicsId today cfs0) =
      if hasField ltcId cfs0 then readValue ltcId cfs0 else some (.date today) := by
  unfold synth3
  rw [readValue_gcf_ne _ _ _ _ htd, readValue_gcf_self,
    hasField_gcf_ne _ _ _ _ htl, readValue_gcf_ne _ _ _ _ htl]

theorem readValue_synth3_dics (lksId ltcId dicsId : String) (today : Int)
    (cfs0 : List CustomFieldValue) (hdl : dicsId ≠ lksId) (hdt : dicsId ≠ ltcId) :
    readValue dicsId (synth3 lksId ltcId dicsId today cfs0) =
      if hasField dicsId cfs0 then readValue dicsId cfs0 else some (.int 0) := by
  unfold synth3
  rw [readValue_gcf_self, hasField_gcf_ne _ _ _ _ hdt, hasField_gcf_ne _ _ _ _ hdl,
    readValue_gcf_ne _ _ _ _ hdt, readValue_gcf_ne _ _ _ _ hdl]

theorem ltc_snapshot_val (lksId ltcId : String) (today : Int)
    (cfs0 : List CustomFieldValue) (hlt : lksId ≠ ltcId) :
    (get_custom_field (get_custom_field cfs0 lksId none).2 ltcId
        (some (.date today))).1.field_value =
      if hasField ltcId cfs0 then readValue ltcId cfs0 else some (.date today) := by
  rw [gcf_fst_val, hasField_gcf_ne _ _ _ _ (Ne.symm hlt),
    readValue_gcf_ne _ _ _ _ (Ne.symm hlt)]

theorem track_one_first (lksId ltcId dicsId : String) (today so : Int)
    (cfs0 : List CustomFieldValue) (h : truthyO (readValue lksId cfs0) = false) :
    track_one lksId ltcId dicsId today so cfs0 =
      .ok (setFirst ltcId (.date today) (setFirst lksId (.int so)
        (synth3 lksId ltcId dicsId today cfs0))) := by
  have hs := gcf_fst_readValue cfs0 lksId
  rcases hv : readValue lksId cfs0 with _ | lv
  · rw [hv] at hs
    simp only [track_one, synth3]
    rw [hs]
  · rw [hv] at hs
    have htr : lv.truthy = false := by simpa [truthyO, hv] using h
    simp only [track_one, synth3]
    rw [hs]
    simp [htr]

theorem track_one_eq_stored (lksId ltcId dicsId : String) (today so : Int)
    (cfs0 : List CustomFieldValue) (lv : FieldVal) (d : Int)
    (hlt : lksId ≠ ltcId)
    (hlv : readValue lksId cfs0 = some lv) (htr : lv.truthy = true)
    (heq : pyEqInt so lv = true)
    (hd : readValue ltcId cfs0 = some (.date d)) :
    track_one lksId ltcId dicsId today so cfs0 =
      .ok (setFirst dicsId (.int (today - d)) (synth3 lksId ltcId dicsId today cfs0)) := by
  have hs := gcf_fst_readValue cfs0 lksId
  rw [hlv] at hs
  have hsnap := ltc_snapshot_val lksId ltcId today cfs0 hlt
  rw [readValue_some_hasField ltcId cfs0 _ hd, if_pos rfl, hd] at hsnap
  simp only [track_one, synth3]
  rw [hs, hsnap]
  simp [htr, heq]

theorem track_one_eq_default (lksId ltcId dicsId : String) (today so : Int)
    (cfs0 : List CustomFieldValue) (lv : FieldVal)
    (hlt : lksId ≠ ltcId)
    (hlv : readValue lksId cfs0 = some lv) (htr : lv.truthy = true)
    (heq : pyEqInt so lv = true)
    (hno : hasField ltcId cfs0 = false) :
    track_one lksId ltcId dicsId today so cfs0 =
      .ok (setFirst dicsId (.int 0) (synth3 lksId ltcId dicsId today cfs0)) := by
  have hs := gcf_fst_readValue cfs0 lksId
  rw [hlv] at hs
  have hsnap := ltc_snapshot_val lksId ltcId today cfs0 hlt
  rw [hno] at hsnap
  simp only [Bool.false_eq_true, if_false] at hsnap
  simp only [track_one, synth3]
  rw [hs, hsnap]
  simp [htr, heq]

theorem track_one_eq_bad (lksId ltcId dicsId : String) (today so : Int)
    (cfs0 : List CustomFieldValue) (lv : FieldVal)
    (hlt : lksId ≠ ltcId)
    (hlv : readValue lksId cfs0 = some lv) (htr : lv.truthy = true)
    (heq : pyEqInt so lv = true)
    (hbad : ∀ d : Int, readValue ltcId cfs0 ≠ some (.date d))
    (hhas : hasField ltcId cfs0 = true) :
    track_one lksId ltcId dicsId today so cfs0 =
      .error "ValueError: time data does not match format" := by
  have hs := gcf_fst_readValue cfs0 lksId
  rw [hlv] at hs
  have hsnap := ltc_snapshot_val lksId ltcId today cfs0 hlt
  rw [hhas, if_pos rfl] at hsnap
  simp only [track_one]
  rw [hs, hsnap]
  rcases hv : readValue ltcId cfs0 with _ | w
  · simp [htr, heq]
  · rcases w with n | dd | s
    · simp [htr, heq]
    · exact absurd hv (hbad dd)
    · simp [htr, heq]

theorem track_one_gt (lksId ltcId dicsId : String) (today so : Int)
    (cfs0 : List CustomFieldValue) (lv : FieldVal)
    (hlv : readValue lksId cfs0 = some lv) (htr : lv.truthy = true)
    (hne : pyEqInt so lv = false) (hgt : pyGtInt so lv = true) :
    track_one lksId ltcId dicsId today so cfs0 =
      .ok (setFirst lksId (.int so) (setFirst ltcId (.date today)
        (setFirst dicsId (.int 0) (synth3 lksId ltcId dicsId today cfs0)))) := by
  have hs := gcf_fst_readValue cfs0 lksId
  rw [hlv] at hs
  simp only [track_one, synth3]
  rw [hs]
  simp [htr, hne, hgt]

theorem track_one_noop (lksId ltcId dicsId : String) (today so : Int)
    (cfs0 : List CustomFieldValue) (lv : FieldVal)
    (hlv : readValue lksId cfs0 = some lv) (htr : lv.truthy = true)
    (hne : pyEqInt so lv = false) (hng : pyGtInt so lv = false) :
    track_one lksId ltcId dicsId today so cfs0 =
      .ok (synth3 lksId ltcId dicsId today cfs0) := by
  have hs := gcf_fst_readValue cfs0 lksId
  rw [hlv] at hs
  simp only [track_one, synth3]
  rw [hs]
  simp [htr, hne, hng]

theorem synth3_of_has (lksId ltcId dicsId : String) (today : Int)
    (cfs0 : List CustomFieldValue) (h1 : hasField lksId cfs0 = true)
    (h2 : hasField ltcId cfs0 = true) (h3 : hasField dicsId cfs0 = true) :
    synth3 lksId ltcId dicsId today cfs0 = cfs0 := by
  unfold synth3
  rw [gcf_snd cfs0 lksId none, if_pos h1, gcf_snd cfs0 ltcId (some (.date today)),
    if_pos h2, gcf_snd cfs0 dicsId (some (.int 0)), if_pos h3]

theorem res_first (lksId ltcId dicsId : String) (today so : Int)
    (c : List CustomFieldValue)
    (hlt : lksId ≠ ltcId) (hld : lksId ≠ dicsId) (htd : ltcId ≠ dicsId) :
    readValue lksId (setFirst ltcId (.date today) (setFirst lksId (.int so)
        (synth3 lksId ltcId dicsId today c))) = some (.int so) ∧
    readValue ltcId (setFirst ltcId (.date today) (setFirst lksId (.int so)
        (synth3 lksId ltcId dicsId today c))) = some (.date today) ∧
    readValue dicsId (setFirst ltcId (.date today) (setFirst lksId (.int so)
        (synth3 lksId ltcId dicsId today c))) =
      (if hasField dicsId c then readValue dicsId c else some (.int 0)) ∧
    hasField lksId (setFirst ltcId (.date today) (setFirst lksId (.int so)
        (synth3 lksId ltcId dicsId today c))) = true ∧
    hasField ltcId (setFirst ltcId (.date today) (setFirst lksId (.int so)
        (synth3 lksId ltcId dicsId today c))) = true ∧
    hasField dicsId (setFirst ltcId (.date today) (setFirst lksId (.int so)
        (synth3 lksId ltcId dicsId today c))) = true := by
  refine ⟨?_, ?_, ?_, ?_, ?_, ?_⟩
  · rw [readValue_setFirst_ne _ _ _ _ hlt, readValue_setFirst_self, hasField_synth3_lks]
    simp
  · rw [readValue_setFirst_self, hasField_setFirst, hasField_synth3_ltc]
    simp
  · rw [readValue_setFirst_ne _ _ _ _ (Ne.symm htd), readValue_setFirst_ne _ _ _ _ (Ne.symm hld),
      readValue_synth3_dics _ _ _ _ _ (Ne.symm hld) (Ne.symm htd)]
  · rw [hasField_setFirst, hasField_setFirst, hasField_synth3_lks]
  · rw [hasField_setFirst, hasField_setFirst, hasField_synth3_ltc]
  · rw [hasField_setFirst, hasField_setFirst, hasField_synth3_dics]

theorem res_eq (lksId ltcId dicsId : String) (today : Int) (v : FieldVal)
    (c : List CustomFieldValue)
    (hlt : lksId ≠ ltcId) (hld : lksId ≠ dicsId) (htd : ltcId ≠ dicsId) :
    readValue lksId (setFirst dicsId v (synth3 lksId ltcId dicsId today c)) =
      readValue lksId c ∧
    readValue ltcId (setFirst dicsId v (synth3 lksId ltcId dicsId today c)) =
      (if hasField ltcId c then readValue ltcId c else some (.date today)) ∧
    readValue dicsId (setFirst dicsId v (synth3 lksId ltcId dicsId today c)) = some v ∧
    hasField lksId (setFirst dicsId v (synth3 lksId ltcId dicsId today c)) = true ∧
    hasField ltcId (setFirst dicsId v (synth3 lksId ltcId dicsId today c)) = true ∧
    hasField dicsId (setFirst dicsId v (synth3 lksId ltcId dicsId today c)) = true := by
  refine ⟨?_, ?_, ?_, ?_, ?_, ?_⟩
  · rw [readValue_setFirst_ne _ _ _ _ hld, readValue_synth3_lks _ _ _ _ _ hlt hld]
  · rw [readValue_setFirst_ne _ _ _ _ htd,
      readValue_synth3_ltc _ _ _ _ _ (Ne.symm hlt) htd]
  · rw [readValue_setFirst_self, hasField_synth3_dics]
    simp
  · rw [hasField_setFirst, hasField_synth3_lks]
  · rw [hasField_setFirst, hasField_synth3_ltc]
  · rw [hasField_setFirst, hasField_synth3_dics]

theorem res_gt (lksId ltcId dicsId : String) (today so : Int)
    (c : List CustomFieldValue)
    (hlt : lksId ≠ ltcId) (hld : lksId ≠ dicsId) (htd : ltcId ≠ dicsId) :
    readValue lksId (setFirst lksId (.int so) (setFirst ltcId (.date today)
        (setFirst dicsId (.int 0) (synth3 lksId ltcId dicsId today c)))) =
      some (.int so) ∧
    readValue ltcId (setFirst lksId (.int so) (setFirst ltcId (.date today)
        (setFirst dicsId (.int 0) (synth3 lksId ltcId dicsId today c)))) =
      some (.date today) ∧
    readValue dicsId (setFirst lksId (.int so) (setFirst ltcId (.date today)
        (setFirst dicsId (.int 0) (synth3 lksId ltcId dicsId today c)))) =
      some (.int 0) ∧
    hasField lksId (setFirst lksId (.int so) (setFirst ltcId (.date today)
        (setFirst dicsId (.int 0) (synth3 lksId ltcId dicsId today c)))) = true ∧
    hasField ltcId (setFirst lksId (.int so) (setFirst ltcId (.date today)
        (setFirst dicsId (.int 0) (synth3 lksId ltcId dicsId today c)))) = true ∧
    hasField dicsId (setFirst lksId (.int so) (setFirst ltcId (.date today)
        (setFirst dicsId (.int 0) (synth3 lksId ltcId dicsId today c)))) = true := by
  refine ⟨?_, ?_, ?_, ?_, ?_, ?_⟩
  · rw [readValue_setFirst_self, hasField_setFirst, hasField_setFirst, hasField_synth3_lks]
    simp
  · rw [readValue_setFirst_ne _ _ _ _ (Ne.symm hlt), readValue_setFirst_self,
      hasField_setFirst, hasField_synth3_ltc]
    simp
  · rw [readValue_setFirst_ne _ _ _ _ (Ne.symm hld), readValue_setFirst_ne _ _ _ _ (Ne.symm htd),
      readValue_setFirst_self, hasField_synth3_dics]
    simp
  · rw [hasField_setFirst, hasField_setFirst, hasField_setFirst, hasField_synth3_lks]
  · rw [hasField_setFirst, hasField_setFirst, hasField_setFirst, hasField_synth3_ltc]
  · rw [hasField_setFirst, hasField_setFirst, hasField_setFirst, hasField_synth3_dics]

theorem res_noop (lksId ltcId dicsId : String) (today : Int)
    (c : List CustomFieldValue)
    (hlt : lksId ≠ ltcId) (hld : lksId ≠ dicsId) (htd : ltcId ≠ dicsId) :
    readValue lksId (synth3 lksId ltcId dicsId today c) = readValue lksId c ∧
    readValue ltcId (synth3 lksId ltcId dicsId today c) =
      (if hasField ltcId c then readValue ltcId c else some (.date today)) ∧
    readValue dicsId (synth3 lksId ltcId dicsId today c) =
      (if hasField dicsId c then readValue dicsId c else some (.int 0)) := by
  exact ⟨readValue_synth3_lks _ _ _ _ _ hlt hld,
    readValue_synth3_ltc _ _ _ _ _ (Ne.symm hlt) htd,
    readValue_synth3_dics _ _ _ _ _ (Ne.symm hld) (Ne.symm htd)⟩

end HelperLemmas

/-- C4: for an opportunity with a non-null stage id whose last_known_stage
custom field has no recorded value, one run of the tracking step yields
last_known_stage equal to the current stage order, last_time_stage_changed
equal to today at day granularity, and days_in_current_stage equal to its
prior value, or 0 when the field was absent; it is not recomputed. The
resolved field ids are pairwise distinct, as produced by three distinct
custom-field definitions. -/
theorem claim_C4_first_time (lksId ltcId dicsId : String) (today so : Int)
    (cfs : List CustomFieldValue)
    (hlt : lksId ≠ ltcId) (hld : lksId ≠ dicsId) (htd : ltcId ≠ dicsId)
    (h : truthyO (readValue lksId cfs) = false) :
    (track_one lksId ltcId dicsId today so cfs).map (readValue lksId) =
      .ok (some (.int so)) ∧
    (track_one lksId ltcId dicsId today so cfs).map (readValue ltcId) =
      .ok (some (.date today)) ∧
    (track_one lksId ltcId dicsId today so cfs).map (readValue dicsId) =
      .ok (if hasField dicsId cfs then readValue dicsId cfs else some (.int 0)) := by
  rw [track_one_first _ _ _ _ _ _ h]
  obtain ⟨e1, e2, e3, _⟩ := res_first lksId ltcId dicsId today so cfs hlt hld htd
  simp only [Except.map]
  exact ⟨by rw [e1], by rw [e2], by rw [e3]⟩

theorem claim_C4_witness :
    truthyO (readValue "a" []) = false ∧
    ((track_one "a" "b" "c" 10 1 []).map (readValue "a") = .ok (some (.int 1)) ∧
     (track_one "a" "b" "c" 10 1 []).map (readValue "b") = .ok (some (.date 10)) ∧
     (track_one "a" "b" "c" 10 1 []).map (readValue "c") = .ok (some (.int 0))) :=
  ⟨rfl, claim_C4_first_time "a" "b" "c" 10 1 []
    (by decide) (by decide) (by decide) rfl⟩

/-- C10: when the recorded last_known_stage value is present but falsy
(the integer 0 or the empty string), the tracker takes the first-time
branch: it overwrites last_known_stage with the current stage order and
resets last_time_stage_changed to today, because line 185 tests presence
by Python truthiness rather than key existence. -/
theorem claim_C10_falsy_retracks (lksId ltcId dicsId : String) (today so : Int)
    (cfs : List CustomFieldValue) (v : FieldVal)
    (hlt : lksId ≠ ltcId) (hld : lksId ≠ dicsId) (htd : ltcId ≠ dicsId)
    (hv : readValue lksId cfs = some v) (hfalsy : v.truthy = false) :
    (track_one lksId ltcId dicsId today so cfs).map (readValue lksId) =
      .ok (some (.int so)) ∧
    (track_one lksId ltcId dicsId today so cfs).map (readValue ltcId) =
      .ok (some (.date today)) := by
  have h : truthyO (readValue lksId cfs) = false := by rw [hv]; exact hfalsy
  rw [track_one_first _ _ _ _ _ _ h]
  obtain ⟨e1, e2, _⟩ := res_first lksId ltcId dicsId today so cfs hlt hld htd
  simp only [Except.map]
  exact ⟨by rw [e1], by rw [e2]⟩

theorem claim_C10_witness :
    readValue "a" [⟨"a", some (.int 0)⟩] = some (.int 0) ∧
    FieldVal.truthy (.int 0) = false ∧
    ((track_one "a" "b" "c" 10 3 [⟨"a", some (.int 0)⟩]).map (readValue "a") =
        .ok (some (.int 3)) ∧
     (track_one "a" "b" "c" 10 3 [⟨"a", some (.int 0)⟩]).map (readValue "b") =
        .ok (some (.date 10))) :=
  ⟨rfl, rfl, claim_C10_falsy_retracks "a" "b" "c" 10 3 [⟨"a", some (.int 0)⟩] (.int 0)
    (by decide) (by decide) (by decide) rfl rfl⟩

/-- C5: when the current stage order equals the recorded (truthy)
last_known_stage value and last_time_stage_changed stores a date string
of day number d, one run of the tracking step sets days_in_current_stage
to today minus d in whole days and leaves last_known_stage and
last_time_stage_changed unchanged. Day-granularity subtraction of the
source, (datetime.now() - midnight).days, equals the difference of the
two day numbers. -/
theorem claim_C5_same_stage (lksId ltcId dicsId : String) (today so d : Int)
    (cfs : List CustomFieldValue)
    (hlt : lksId ≠ ltcId) (hld : lksId ≠ dicsId) (htd : ltcId ≠ dicsId)
    (hlks : readValue lksId cfs = some (.int so)) (hso : so ≠ 0)
    (hltc : readValue ltcId cfs = some (.date d)) :
    (track_one lksId ltcId dicsId today so cfs).map (readValue dicsId) =
      .ok (some (.int (today - d))) ∧
    (track_one lksId ltcId dicsId today so cfs).map (readValue lksId) =
      .ok (readValue lksId cfs) ∧
    (track_one lksId ltcId dicsId today so cfs).map (readValue ltcId) =
      .ok (readValue ltcId cfs) := by
  rw [track_one_eq_stored lksId ltcId dicsId today so cfs (.int so) d hlt hlks
    (by simp [FieldVal.truthy, hso]) (by simp [pyEqInt]) hltc]
  obtain ⟨e1, e2, e3, _⟩ := res_eq lksId ltcId dicsId today (.int (today - d)) cfs hlt hld htd
  simp only [Except.map]
  refine ⟨by rw [e3], by rw [e1], ?_⟩
  rw [e2, if_pos (readValue_some_hasField ltcId cfs _ hltc)]

theorem claim_C5_witness :
    readValue "a" [⟨"a", some (.int 2)⟩, ⟨"b", some (.date 4)⟩] = some (.int 2) ∧
    readValue "b" [⟨"a", some (.int 2)⟩, ⟨"b", some (.date 4)⟩] = some (.date 4) ∧
    ((track_one "a" "b" "c" 9 2 [⟨"a", some (.int 2)⟩, ⟨"b", some (.date 4)⟩]).map
        (readValue "c") = .ok (some (.int 5)) ∧
     (track_one "a" "b" "c" 9 2 [⟨"a", some (.int 2)⟩, ⟨"b", some (.date 4)⟩]).map
        (readValue "a") = .ok (some (.int 2)) ∧
     (track_one "a" "b" "c" 9 2 [⟨"a", some (.int 2)⟩, ⟨"b", some (.date 4)⟩]).map
        (readValue "b") = .ok (some (.date 4))) :=
  ⟨rfl, rfl, claim_C5_same_stage "a" "b" "c" 9 2 4
    [⟨"a", some (.int 2)⟩, ⟨"b", some (.date 4)⟩]
    (by decide) (by decide) (by decide) rfl (by decide) rfl⟩

/-- C6: when the current stage order is strictly greater than the
recorded (truthy) last_known_stage value, one run of the tracking step
resets days_in_current_stage to 0, sets last_time_stage_changed to today
and sets last_known_stage to the current stage order. -/
theorem claim_C6_advance (lksId ltcId dicsId : String) (today so r : Int)
    (cfs : List CustomFieldValue)
    (hlt : lksId ≠ ltcId) (hld : lksId ≠ dicsId) (htd : ltcId ≠ dicsId)
    (hlks : readValue lksId cfs = some (.int r)) (hr : r ≠ 0) (hgt : r < so) :
    (track_one lksId ltcId dicsId today so cfs).map (readValue dicsId) =
      .ok (some (.int 0)) ∧
    (track_one lksId ltcId dicsId today so cfs).map (readValue ltcId) =
      .ok (some (.date today)) ∧
    (track_one lksId ltcId dicsId today so cfs).map (readValue lksId) =
      .ok (some (.int so)) := by
  rw [track_one_gt lksId ltcId dicsId today so cfs (.int r) hlks
    (by simp [FieldVal.truthy, hr])
    (by simp [pyEqInt]; omega) (by simp [pyGtInt, hgt])]
  obtain ⟨e1, e2, e3, _⟩ := res_gt lksId ltcId dicsId today so cfs hlt hld htd
  simp only [Except.map]
  exact ⟨by rw [e3], by rw [e2], by rw [e1]⟩

theorem claim_C6_witness :
    readValue "a" [⟨"a", some (.int 1)⟩, ⟨"b", some (.date 4)⟩, ⟨"c", some (.int 5)⟩] =
      some (.int 1) ∧
    ((track_one "a" "b" "c" 9 2
        [⟨"a", some (.int 1)⟩, ⟨"b", some (.date 4)⟩, ⟨"c", some (.int 5)⟩]).map
        (readValue "c") = .ok (some (.int 0)) ∧
     (track_one "a" "b" "c" 9 2
        [⟨"a", some (.int 1)⟩, ⟨"b", some (.date 4)⟩, ⟨"c", some (.int 5)⟩]).map
        (readValue "b") = .ok (some (.date 9)) ∧
     (track_one "a" "b" "c" 9 2
        [⟨"a", some (.int 1)⟩, ⟨"b", some (.date 4)⟩, ⟨"c", some (.int 5)⟩]).map
        (readValue "a") = .ok (some (.int 2))) :=
  ⟨rfl, claim_C6_advance "a" "b" "c" 9 2 1
    [⟨"a", some (.int 1)⟩, ⟨"b", some (.date 4)⟩, ⟨"c", some (.int 5)⟩]
    (by decide) (by decide) (by decide) rfl (by decide) (by decide)⟩

/-- C7: when the current stage order is strictly less than the recorded
(truthy) last_known_stage value and the three tracked fields are present,
the loop persists the opportunity completely unchanged, custom fields
included, and goes on with the remaining opportunities: the regression
branch mutates nothing yet the opportunity is still saved. -/
theorem claim_C7_regression_saved (lksId ltcId dicsId : String)
    (stages : List Stage) (today : Int) (saves rest : List Opp) (opp : Opp)
    (sid r : Int) (st : Stage)
    (hsid : opp.stage_id = some sid) (hs0 : sid ≠ 0)
    (hst : stagesLookup stages sid = some st)
    (hlks : readValue lksId opp.customfields = some (.int r)) (hr : r ≠ 0)
    (hlt : st.stage_order < r)
    (hhas2 : hasField ltcId opp.customfields = true)
    (hhas3 : hasField dicsId opp.customfields = true) :
    runLoop lksId ltcId dicsId stages today (opp :: rest) saves =
      runLoop lksId ltcId dicsId stages today rest (saves ++ [opp]) := by
  have htrack : track_one lksId ltcId dicsId today st.stage_order opp.customfields =
      .ok opp.customfields := by
    rw [track_one_noop lksId ltcId dicsId today st.stage_order opp.customfields (.int r)
      hlks (by simp [FieldVal.truthy, hr]) (by simp [pyEqInt]; omega)
      (by simp [pyGtInt]; omega)]
    rw [synth3_of_has lksId ltcId dicsId today opp.customfields
      (readValue_some_hasField lksId opp.customfields _ hlks) hhas2 hhas3]
  simp only [runLoop, hsid, hs0, if_false, hst, htrack]
  rw [← hsid]

theorem claim_C7_witness :
    (Opp.mk 7 (some 5) [⟨"a", some (.int 2)⟩, ⟨"b", some (.date 4)⟩, ⟨"c", some (.int 9)⟩]).stage_id =
      some 5 ∧
    stagesLookup [⟨5, 1⟩] 5 = some ⟨5, 1⟩ ∧
    readValue "a" [⟨"a", some (.int 2)⟩, ⟨"b", some (.date 4)⟩, ⟨"c", some (.int 9)⟩] =
      some (.int 2) ∧
    runLoop "a" "b" "c" [⟨5, 1⟩] 9
        [Opp.mk 7 (some 5) [⟨"a", some (.int 2)⟩, ⟨"b", some (.date 4)⟩, ⟨"c", some (.int 9)⟩]] [] =
      runLoop "a" "b" "c" [⟨5, 1⟩] 9 []
        ([] ++ [Opp.mk 7 (some 5) [⟨"a", some (.int 2)⟩, ⟨"b", some (.date 4)⟩, ⟨"c", some (.int 9)⟩]]) :=
  ⟨rfl, rfl, rfl,
    claim_C7_regression_saved "a" "b" "c" [⟨5, 1⟩] 9 [] []
      (Opp.mk 7 (some 5) [⟨"a", some (.int 2)⟩, ⟨"b", some (.date 4)⟩, ⟨"c", some (.int 9)⟩])
      5 2 ⟨5, 1⟩ rfl (by decide) rfl rfl (by decide) (by decide) rfl rfl⟩

/-- C2: when the loop reaches an opportunity whose non-null stage id is
absent from the stage catalog, the whole run returns at once: the
opportunity is not mutated or persisted and no later opportunity is
processed or persisted; the outcome carries exactly the opportunities
saved before it. -/
theorem claim_C2_unknown_stage_aborts (lksId ltcId dicsId : String)
    (stages : List Stage) (today : Int) (saves rest : List Opp) (opp : Opp)
    (sid : Int) (hsid : opp.stage_id = some sid) (hs0 : sid ≠ 0)
    (habs : stagesLookup stages sid = none) :
    runLoop lksId ltcId dicsId stages today (opp :: rest) saves =
      .earlyReturn ("No stage " ++ toString sid ++ " found!") saves := by
  simp only [runLoop, hsid, if_neg hs0, habs]

theorem claim_C2_witness :
    (Opp.mk 7 (some 5) []).stage_id = some 5 ∧
    stagesLookup [⟨4, 1⟩] 5 = none ∧
    runLoop "a" "b" "c" [⟨4, 1⟩] 9
        [Opp.mk 7 (some 5) [], Opp.mk 8 (some 4) []] [Opp.mk 6 none []] =
      .earlyReturn ("No stage " ++ toString (5 : Int) ++ " found!") [Opp.mk 6 none []] :=
  ⟨rfl, rfl,
    claim_C2_unknown_stage_aborts "a" "b" "c" [⟨4, 1⟩] 9 [Opp.mk 6 none []]
      [Opp.mk 8 (some 4) []] (Opp.mk 7 (some 5) []) 5 rfl (by decide) rfl⟩

/-- C1 counterexample: with no custom-field definitions at all the Field
Resolver finds zero matches for every required name, yet the run does not
raise: it logs and returns normally (process exit code 0), so the claim
that the process terminates non-zero, or raises, is false on this input.
The run does fetch and process nothing, which is the part of the claim
the code satisfies. -/
theorem claim_C1_counterexample :
    process_opportunities_stages 0 ⟨[], [], []⟩ =
      .earlyReturn "No last_known_stage custom field found!" [] ∧
    (process_opportunities_stages 0 ⟨[], [], []⟩).isRaised = false :=
  ⟨rfl, rfl⟩

/-- C1 amended: whenever the Field Resolver finds zero matches or more
than one match for any of the three required custom-field names, the run
logs an error and returns normally, with exit code zero rather than
non-zero, and no opportunity is fetched, processed or persisted. -/
theorem claim_C1_amended (today : Int) (srv : Server)
    (h : (get_fields_by_name srv.customFields "last known stage").length ≠ 1 ∨
         (get_fields_by_name srv.customFields "last time stage changed").length ≠ 1 ∨
         (get_fields_by_name srv.customFields "days in current stage").length ≠ 1) :
    ∃ msg, process_opportunities_stages today srv = .earlyReturn msg [] := by
  simp only [process_opportunities_stages]
  split_ifs with h1 h2 h3 h4 h5 h6
  · exact ⟨_, rfl⟩
  · exact ⟨_, rfl⟩
  · exact ⟨_, rfl⟩
  · exact ⟨_, rfl⟩
  · exact ⟨_, rfl⟩
  · exact ⟨_, rfl⟩
  · exfalso
    rcases h with h | h | h <;> omega

theorem claim_C1_witness :
    ((get_fields_by_name (Server.mk [] [] []).customFields "last known stage").length ≠ 1 ∨
     (get_fields_by_name (Server.mk [] [] []).customFields "last time stage changed").length ≠ 1 ∨
     (get_fields_by_name (Server.mk [] [] []).customFields "days in current stage").length ≠ 1) ∧
    ∃ msg, process_opportunities_stages 0 ⟨[], [], []⟩ = .earlyReturn msg [] :=
  ⟨Or.inl (by decide), claim_C1_amended 0 ⟨[], [], []⟩ (Or.inl (by decide))⟩

theorem get_all_stuck (r : List Nat) (hr : r.length = 4) :
    ∀ fuel skip : Nat, 5 ≤ skip →
      insightly_get_all_fuel [1, 2, 3, 4, 5] 2 fuel skip r = none := by
  intro fuel
  induction fuel with
  | zero => intro skip _; rfl
  | succ n ih =>
    intro skip h
    have hdrop : ([1, 2, 3, 4, 5] : List Nat).drop skip = [] :=
      List.drop_eq_nil_of_le (by simpa using h)
    simp only [insightly_get_all_fuel, hdrop, List.take_nil, List.append_nil, hr]
    simp only [List.length_cons, List.length_nil]
    rw [if_neg (by omega)]
    exact ih (skip + 4) (by omega)

/-- C3: the pagination of insightly_get_all is broken for result sets
needing three or more batches. The loop advances skip by the length of
the accumulated results rather than of the last page, so against a
server of 5 items with batch size 2 the third request uses offset
2 + 4 = 6 instead of 4, receives the empty slice, and the loop never
reaches the reported total: for every iteration bound the fetch fails to
terminate, and the full result set is never returned. The claim states
the intended behavior; the code is a slip. -/
theorem claim_C3_pagination_diverges :
    ∀ fuel : Nat, insightly_get_all [1, 2, 3, 4, 5] 2 fuel = none := by
  intro fuel
  match fuel with
  | 0 => rfl
  | 1 => rfl
  | 2 => rfl
  | (n + 3) =>
    have step : insightly_get_all [1, 2, 3, 4, 5] 2 (n + 3) =
        insightly_get_all_fuel [1, 2, 3, 4, 5] 2 (n + 1) 6 [1, 2, 3, 4] := rfl
    rw [step]
    exact get_all_stuck [1, 2, 3, 4] rfl (n + 1) 6 (by omega)

theorem one_le_countField_of_has (j : String) (c : List CustomFieldValue)
    (h : hasField j c = true) : 1 ≤ countField j c := by
  rcases Nat.eq_zero_or_pos (countField j c) with h0 | h0
  · rw [(countField_zero_iff j c).1 h0] at h
    cases h
  · exact h0

theorem has_of_one_le_countField (j : String) (c : List CustomFieldValue)
    (h : 1 ≤ countField j c) : hasField j c = true := by
  cases hb : hasField j c
  · have := (countField_zero_iff j c).2 hb
    omega
  · rfl

theorem countField_gcf_has (c : List CustomFieldValue) (i j : String)
    (d : Option FieldVal) (h : hasField j c = true) :
    countField j (get_custom_field c i d).2 = countField j c := by
  rw [countField_gcf]
  by_cases hij : i = j
  · subst hij
    simp [h]
  · simp [hij]

theorem countField_gcf_of_ne (c : List CustomFieldValue) (i j : String)
    (d : Option FieldVal) (h : i ≠ j) :
    countField j (get_custom_field c i d).2 = countField j c := by
  rw [countField_gcf]
  simp [h]

theorem countField_gcf_absent (c : List CustomFieldValue) (j : String)
    (d : Option FieldVal) (h : hasField j c = false) :
    countField j (get_custom_field c j d).2 = countField j c + 1 := by
  rw [countField_gcf]
  simp [h]

theorem countField_gcf_norm (c : List CustomFieldValue) (j : String)
    (d : Option FieldVal) (h : countField j c ≤ 1) :
    countField j (get_custom_field c j d).2 = 1 := by
  rcases Nat.eq_zero_or_pos (countField j c) with h0 | h0
  · rw [countField_gcf_absent c j d ((countField_zero_iff j c).1 h0), h0]
  · rw [countField_gcf_has c j j d (has_of_one_le_countField j c h0)]
    omega

theorem countField_gcf_le_one (c : List CustomFieldValue) (i j : String)
    (d : Option FieldVal) (h : countField j c ≤ 1) :
    countField j (get_custom_field c i d).2 ≤ 1 := by
  rw [countField_gcf]
  by_cases hc : i = j ∧ hasField i c = false
  · obtain ⟨hij, hnf⟩ := hc
    subst hij
    have h0 : countField i c = 0 := (countField_zero_iff i c).2 hnf
    simp [hnf, h0]
  · rw [if_neg hc]
    exact h

theorem countField_synth3_lks (lksId ltcId dicsId : String) (today : Int)
    (cfs : List CustomFieldValue) (h : countField lksId cfs ≤ 1) :
    countField lksId (synth3 lksId ltcId dicsId today cfs) = 1 := by
  unfold synth3
  have h1 := hasField_gcf_self cfs lksId none
  rw [countField_gcf_has _ _ _ _ (hasField_gcf_mono _ _ _ _ h1),
    countField_gcf_has _ _ _ _ h1, countField_gcf_norm cfs lksId none h]

theorem countField_synth3_ltc (lksId ltcId dicsId : String) (today : Int)
    (cfs : List CustomFieldValue) (h : countField ltcId cfs ≤ 1) :
    countField ltcId (synth3 lksId ltcId dicsId today cfs) = 1 := by
  unfold synth3
  have h2 := hasField_gcf_self (get_custom_field cfs lksId none).2 ltcId
    (some (.date today))
  rw [countField_gcf_has _ _ _ _ h2,
    countField_gcf_norm _ ltcId _ (countField_gcf_le_one cfs lksId ltcId none h)]

theorem countField_synth3_dics (lksId ltcId dicsId : String) (today : Int)
    (cfs : List CustomFieldValue) (h : countField dicsId cfs ≤ 1) :
    countField dicsId (synth3 lksId ltcId dicsId today cfs) = 1 := by
  unfold synth3
  exact countField_gcf_norm _ dicsId _
    (countField_gcf_le_one _ ltcId dicsId _
      (countField_gcf_le_one cfs lksId dicsId none h))

theorem track_one_ok_counts (lksId ltcId dicsId : String) (today so : Int)
    (cfs cfs2 : List CustomFieldValue)
    (h : track_one lksId ltcId dicsId today so cfs = .ok cfs2) (j : String) :
    countField j cfs2 = countField j (synth3 lksId ltcId dicsId today cfs) := by
  unfold synth3
  simp only [track_one] at h
  repeat' split at h
  all_goals first
    | (injection h with h3
       subst h3
       simp [countField_setFirst])
    | simp at h

/-- C9 counterexample: when the initial CUSTOMFIELDS collection already
holds two entries for the resolved last_known_stage field id, the
collection after a successful tracking step still holds two entries for
that id, so the claim that processing leaves exactly one entry per
resolved field id is false on this input. -/
theorem claim_C9_counterexample :
    track_one "a" "b" "c" 10 1 [⟨"a", some (.int 1)⟩, ⟨"a", some (.int 1)⟩] =
      .ok [⟨"a", some (.int 1)⟩, ⟨"a", some (.int 1)⟩, ⟨"b", some (.date 10)⟩,
        ⟨"c", some (.int 0)⟩] ∧
    (track_one "a" "b" "c" 10 1 [⟨"a", some (.int 1)⟩, ⟨"a", some (.int 1)⟩]).map
      (countField "a") = .ok 2 :=
  ⟨rfl, rfl⟩

/-- C9 amended: after a successful tracking step, each resolved field id
has at least one CustomFieldValue entry, created with a default value
when absent; and it has exactly one entry whenever the initial
collection held at most one entry for that id. Duplicate entries already
present are kept, first match wins on read. -/
theorem claim_C9_field_presence (lksId ltcId dicsId : String) (today so : Int)
    (cfs cfs2 : List CustomFieldValue)
    (h : track_one lksId ltcId dicsId today so cfs = .ok cfs2) :
    (1 ≤ countField lksId cfs2 ∧ 1 ≤ countField ltcId cfs2 ∧
      1 ≤ countField dicsId cfs2) ∧
    ((countField lksId cfs ≤ 1 → countField lksId cfs2 = 1) ∧
     (countField ltcId cfs ≤ 1 → countField ltcId cfs2 = 1) ∧
     (countField dicsId cfs ≤ 1 → countField dicsId cfs2 = 1)) := by
  have m := track_one_ok_counts lksId ltcId dicsId today so cfs cfs2 h
  refine ⟨⟨?_, ?_, ?_⟩, ?_, ?_, ?_⟩
  · rw [m]
    exact one_le_countField_of_has _ _ (hasField_synth3_lks _ _ _ _ _)
  · rw [m]
    exact one_le_countField_of_has _ _ (hasField_synth3_ltc _ _ _ _ _)
  · rw [m]
    exact one_le_countField_of_has _ _ (hasField_synth3_dics _ _ _ _ _)
  · intro hle
    rw [m]
    exact countField_synth3_lks _ _ _ _ _ hle
  · intro hle
    rw [m]
    exact countField_synth3_ltc _ _ _ _ _ hle
  · intro hle
    rw [m]
    exact countField_synth3_dics _ _ _ _ _ hle

theorem claim_C9_witness :
    track_one "a" "b" "c" 10 1 [] =
      .ok [⟨"a", some (.int 1)⟩, ⟨"b", some (.date 10)⟩, ⟨"c", some (.int 0)⟩] ∧
    ((1 ≤ countField "a" [⟨"a", some (.int 1)⟩, ⟨"b", some (.date 10)⟩,
        ⟨"c", some (.int 0)⟩] ∧
      1 ≤ countField "b" [⟨"a", some (.int 1)⟩, ⟨"b", some (.date 10)⟩,
        ⟨"c", some (.int 0)⟩] ∧
      1 ≤ countField "c" [⟨"a", some (.int 1)⟩, ⟨"b", some (.date 10)⟩,
        ⟨"c", some (.int 0)⟩]) ∧
     ((countField "a" [] ≤ 1 → countField "a" [⟨"a", some (.int 1)⟩,
        ⟨"b", some (.date 10)⟩, ⟨"c", some (.int 0)⟩] = 1) ∧
      (countField "b" [] ≤ 1 → countField "b" [⟨"a", some (.int 1)⟩,
        ⟨"b", some (.date 10)⟩, ⟨"c", some (.int 0)⟩] = 1) ∧
      (countField "c" [] ≤ 1 → countField "c" [⟨"a", some (.int 1)⟩,
        ⟨"b", some (.date 10)⟩, ⟨"c", some (.int 0)⟩] = 1))) :=
  ⟨rfl, claim_C9_field_presence "a" "b" "c" 10 1 []
    [⟨"a", some (.int 1)⟩, ⟨"b", some (.date 10)⟩, ⟨"c", some (.int 0)⟩] rfl⟩

theorem pyEqInt_elim (n : Int) (lv : FieldVal) (h : pyEqInt n lv = true) :
    lv = .int n := by
  cases lv with
  | int m =>
    simp [pyEqInt] at h
    subst h
    rfl
  | date d => simp [pyEqInt] at h
  | str s => simp [pyEqInt] at h

theorem track_second_eq (lksId ltcId dicsId : String) (today so d : Int)
    (cfs1 cfs2 : List CustomFieldValue)
    (hlt : lksId ≠ ltcId) (hld : lksId ≠ dicsId) (htd : ltcId ≠ dicsId)
    (hso : so ≠ 0)
    (hlks1 : readValue lksId cfs1 = some (.int so))
    (hltc1 : readValue ltcId cfs1 = some (.date d))
    (h2 : track_one lksId ltcId dicsId today so cfs1 = .ok cfs2) :
    readValue lksId cfs2 = readValue lksId cfs1 ∧
    readValue ltcId cfs2 = readValue ltcId cfs1 ∧
    readValue dicsId cfs2 = some (.int (today - d)) := by
  rw [track_one_eq_stored lksId ltcId dicsId today so cfs1 (.int so) d hlt hlks1
    (by simp [FieldVal.truthy, hso]) (by simp [pyEqInt]) hltc1] at h2
  injection h2 with hc
  subst hc
  obtain ⟨e1, e2, e3, _, _, _⟩ :=
    res_eq lksId ltcId dicsId today (.int (today - d)) cfs1 hlt hld htd
  exact ⟨e1, by rw [e2, if_pos (readValue_some_hasField ltcId cfs1 _ hltc1)], e3⟩

theorem track_second_first_zero (lksId ltcId dicsId : String) (today : Int)
    (cfs1 cfs2 : List CustomFieldValue)
    (hlt : lksId ≠ ltcId) (hld : lksId ≠ dicsId) (htd : ltcId ≠ dicsId)
    (hlks1 : readValue lksId cfs1 = some (.int 0))
    (hhasd : hasField dicsId cfs1 = true)
    (h2 : track_one lksId ltcId dicsId today 0 cfs1 = .ok cfs2) :
    readValue lksId cfs2 = some (.int 0) ∧
    readValue ltcId cfs2 = some (.date today) ∧
    readValue dicsId cfs2 = readValue dicsId cfs1 := by
  rw [track_one_first lksId ltcId dicsId today 0 cfs1
    (by rw [hlks1]; simp [truthyO, FieldVal.truthy])] at h2
  injection h2 with hc
  subst hc
  obtain ⟨f1, f2, f3, _⟩ := res_first lksId ltcId dicsId today 0 cfs1 hlt hld htd
  exact ⟨f1, f2, by rw [f3, if_pos hhasd]⟩

/-- C8 counterexample: an opportunity never tracked before but carrying a
stale days_in_current_stage value of 7 refutes same-day idempotence. The
first application takes the first-time branch and leaves days at 7; the
second application, on the same day, takes the equal-stage branch and
recomputes days to 0, so the state after the second application differs
from the state after the first. -/
theorem claim_C8_counterexample :
    (track_one "a" "b" "c" 10 1 [⟨"c", some (.int 7)⟩]).map (readValue "c") =
      .ok (some (.int 7)) ∧
    ((track_one "a" "b" "c" 10 1 [⟨"c", some (.int 7)⟩]).bind
        (track_one "a" "b" "c" 10 1)).map (readValue "c") =
      .ok (some (.int 0)) ∧
    some (FieldVal.int 7) ≠ some (FieldVal.int 0) :=
  ⟨rfl, rfl, by decide⟩

/-- C8 amended: with today and the stage order held fixed, applying the
tracking step twice yields the same three tracked values after the
second application as after the first, provided the state after the
first application is not the anomalous one: it suffices that the
opportunity had a truthy recorded last_known_stage before the first
application, or that days_in_current_stage equals 0 after the first
application, or that the stage order is 0. The counterexample shows the
proviso cannot be dropped: a first-time tracking that leaves a stale
nonzero days value is moved to 0 by the second application. -/
theorem claim_C8_idempotent_guarded (lksId ltcId dicsId : String) (today so : Int)
    (cfs cfs1 cfs2 : List CustomFieldValue)
    (hlt : lksId ≠ ltcId) (hld : lksId ≠ dicsId) (htd : ltcId ≠ dicsId)
    (h1 : track_one lksId ltcId dicsId today so cfs = .ok cfs1)
    (h2 : track_one lksId ltcId dicsId today so cfs1 = .ok cfs2)
    (hside : truthyO (readValue lksId cfs) = true ∨
             readValue dicsId cfs1 = some (.int 0) ∨ so = 0) :
    readValue lksId cfs2 = readValue lksId cfs1 ∧
    readValue ltcId cfs2 = readValue ltcId cfs1 ∧
    readValue dicsId cfs2 = readValue dicsId cfs1 := by
  by_cases hB : truthyO (readValue lksId cfs) = false
  · -- first application takes the first-time branch
    rw [track_one_first lksId ltcId dicsId today so cfs hB] at h1
    injection h1 with hc
    subst hc
    obtain ⟨f1, f2, f3, f4, f5, f6⟩ := res_first lksId ltcId dicsId today so cfs hlt hld htd
    rcases hside with hs | hs | hs
    · rw [hB] at hs
      cases hs
    · by_cases hso : so = 0
      · subst hso
        obtain ⟨g1, g2, g3⟩ := track_second_first_zero lksId ltcId dicsId today _ _
          hlt hld htd f1 f6 h2
        exact ⟨by rw [g1, f1], by rw [g2, f2], g3⟩
      · obtain ⟨g1, g2, g3⟩ := track_second_eq lksId ltcId dicsId today so today _ _
          hlt hld htd hso f1 f2 h2
        refine ⟨g1, g2, ?_⟩
        rw [g3, hs]
        simp
    · subst hs
      obtain ⟨g1, g2, g3⟩ := track_second_first_zero lksId ltcId dicsId today _ _
        hlt hld htd f1 f6 h2
      exact ⟨by rw [g1, f1], by rw [g2, f2], g3⟩
  · -- truthy recorded value before the first application
    have hT : truthyO (readValue lksId cfs) = true := by simpa using hB
    rcases hv : readValue lksId cfs with _ | lv
    · rw [hv] at hT
      cases hT
    · have htr : lv.truthy = true := by rw [hv] at hT; exact hT
      by_cases hpe : pyEqInt so lv = true
      · -- equal-stage branch first
        have hlv : lv = .int so := pyEqInt_elim so lv hpe
        subst hlv
        have hso : so ≠ 0 := by simpa [FieldVal.truthy] using htr
        by_cases hhas : hasField ltcId cfs = true
        · rcases hv2 : readValue ltcId cfs with _ | w
          · rw [track_one_eq_bad lksId ltcId dicsId today so cfs _ hlt hv htr hpe
              (by intro dd; rw [hv2]; simp) hhas] at h1
            cases h1
          · rcases w with n | dd | s
            · rw [track_one_eq_bad lksId ltcId dicsId today so cfs _ hlt hv htr hpe
                (by intro dd; rw [hv2]; simp) hhas] at h1
              cases h1
            · rw [track_one_eq_stored lksId ltcId dicsId today so cfs _ dd hlt hv htr
                hpe hv2] at h1
              injection h1 with hc
              subst hc
              obtain ⟨e1, e2, e3, _, _, _⟩ :=
                res_eq lksId ltcId dicsId today (.int (today - dd)) cfs hlt hld htd
              have hlks1 : readValue lksId (setFirst dicsId (.int (today - dd))
                  (synth3 lksId ltcId dicsId today cfs)) = some (.int so) := by
                rw [e1, hv]
              have hltc1 : readValue ltcId (setFirst dicsId (.int (today - dd))
                  (synth3 lksId ltcId dicsId today cfs)) = some (.date dd) := by
                rw [e2, if_pos hhas, hv2]
              obtain ⟨g1, g2, g3⟩ := track_second_eq lksId ltcId dicsId today so dd _ _
                hlt hld htd hso hlks1 hltc1 h2
              exact ⟨g1, g2, by rw [g3, e3]⟩
            · rw [track_one_eq_bad lksId ltcId dicsId today so cfs _ hlt hv htr hpe
                (by intro dd; rw [hv2]; simp) hhas] at h1
              cases h1
        · have hhasf : hasField ltcId cfs = false := by simpa using hhas
          rw [track_one_eq_default lksId ltcId dicsId today so cfs _ hlt hv htr hpe
            hhasf] at h1
          injection h1 with hc
          subst hc
          obtain ⟨e1, e2, e3, _, _, _⟩ :=
            res_eq lksId ltcId dicsId today (.int 0) cfs hlt hld htd
          have hlks1 : readValue lksId (setFirst dicsId (.int 0)
              (synth3 lksId ltcId dicsId today cfs)) = some (.int so) := by
            rw [e1, hv]
          have hltc1 : readValue ltcId (setFirst dicsId (.int 0)
              (synth3 lksId ltcId dicsId today cfs)) = some (.date today) := by
            rw [e2, hhasf]
            simp
          obtain ⟨g1, g2, g3⟩ := track_second_eq lksId ltcId dicsId today so today _ _
            hlt hld htd hso hlks1 hltc1 h2
          refine ⟨g1, g2, ?_⟩
          rw [g3, e3]
          simp
      · have hpef : pyEqInt so lv = false := by simpa using hpe
        by_cases hpg : pyGtInt so lv = true
        · -- advance branch first
          rw [track_one_gt lksId ltcId dicsId today so cfs lv hv htr hpef hpg] at h1
          injection h1 with hc
          subst hc
          obtain ⟨e1, e2, e3, e4, e5, e6⟩ := res_gt lksId ltcId dicsId today so cfs hlt hld htd
          by_cases hso : so = 0
          · subst hso
            obtain ⟨g1, g2, g3⟩ := track_second_first_zero lksId ltcId dicsId today _ _
              hlt hld htd e1 e6 h2
            exact ⟨by rw [g1, e1], by rw [g2, e2], g3⟩
          · obtain ⟨g1, g2, g3⟩ := track_second_eq lksId ltcId dicsId today so today _ _
              hlt hld htd hso e1 e2 h2
            refine ⟨g1, g2, ?_⟩
            rw [g3, e3]
            simp
        · -- regression branch first: everything is a no-op twice
          have hpgf : pyGtInt so lv = false := by simpa using hpg
          rw [track_one_noop lksId ltcId dicsId today so cfs lv hv htr hpef hpgf] at h1
          injection h1 with hc
          subst hc
          have hlks1 : readValue lksId (synth3 lksId ltcId dicsId today cfs) = some lv := by
            rw [readValue_synth3_lks lksId ltcId dicsId today cfs hlt hld, hv]
          rw [track_one_noop lksId ltcId dicsId today so _ lv hlks1 htr hpef hpgf] at h2
          injection h2 with hc2
          subst hc2
          obtain ⟨n1, n2, n3⟩ := res_noop lksId ltcId dicsId today
            (synth3 lksId ltcId dicsId today cfs) hlt hld htd
          refine ⟨n1, ?_, ?_⟩
          · rw [n2, if_pos (hasField_synth3_ltc lksId ltcId dicsId today cfs)]
          · rw [n3, if_pos (hasField_synth3_dics lksId ltcId dicsId today cfs)]

theorem claim_C8_witness :
    track_one "a" "b" "c" 10 2
        [⟨"a", some (.int 2)⟩, ⟨"b", some (.date 4)⟩, ⟨"c", some (.int 6)⟩] =
      .ok [⟨"a", some (.int 2)⟩, ⟨"b", some (.date 4)⟩, ⟨"c", some (.int 6)⟩] ∧
    track_one "a" "b" "c" 10 2
        [⟨"a", some (.int 2)⟩, ⟨"b", some (.date 4)⟩, ⟨"c", some (.int 6)⟩] =
      .ok [⟨"a", some (.int 2)⟩, ⟨"b", some (.date 4)⟩, ⟨"c", some (.int 6)⟩] ∧
    truthyO (readValue "a"
        [⟨"a", some (.int 2)⟩, ⟨"b", some (.date 4)⟩, ⟨"c", some (.int 6)⟩]) = true ∧
    (readValue "a" [⟨"a", some (.int 2)⟩, ⟨"b", some (.date 4)⟩, ⟨"c", some (.int 6)⟩] =
       readValue "a" [⟨"a", some (.int 2)⟩, ⟨"b", some (.date 4)⟩, ⟨"c", some (.int 6)⟩] ∧
     readValue "b" [⟨"a", some (.int 2)⟩, ⟨"b", some (.date 4)⟩, ⟨"c", some (.int 6)⟩] =
       readValue "b" [⟨"a", some (.int 2)⟩, ⟨"b", some (.date 4)⟩, ⟨"c", some (.int 6)⟩] ∧
     readValue "c" [⟨"a", some (.int 2)⟩, ⟨"b", some (.date 4)⟩, ⟨"c", some (.int 6)⟩] =
       readValue "c" [⟨"a", some (.int 2)⟩, ⟨"b", some (.date 4)⟩, ⟨"c", some (.int 6)⟩]) := by
  have hstep : track_one "a" "b" "c" 10 2
      [⟨"a", some (.int 2)⟩, ⟨"b", some (.date 4)⟩, ⟨"c", some (.int 6)⟩] =
      .ok [⟨"a", some (.int 2)⟩, ⟨"b", some (.date 4)⟩, ⟨"c", some (.int 6)⟩] := rfl
  exact ⟨hstep, hstep, rfl,
    claim_C8_idempotent_guarded "a" "b" "c" 10 2
      [⟨"a", some (.int 2)⟩, ⟨"b", some (.date 4)⟩, ⟨"c", some (.int 6)⟩]
      [⟨"a", some (.int 2)⟩, ⟨"b", some (.date 4)⟩, ⟨"c", some (.int 6)⟩]
      [⟨"a", some (.int 2)⟩, ⟨"b", some (.date 4)⟩, ⟨"c", some (.int 6)⟩]
      (by decide) (by decide) (by decide) hstep hstep (Or.inl rfl)⟩

example : insightly_get_all [1, 2, 3, 4, 5] 3 10 = some [1, 2, 3, 4, 5] := by decide

example : insightly_get_all [1, 2, 3, 4, 5] 2 50 = none := by decide

example :
    (track_one "lks" "ltc" "dics" 10 1 []).map (readValue "lks") =
      .ok (some (.int 1)) := rfl
